import Mathlib

/-!
Verification of `adversarial/models.py`: the Keras model-factory methods for
adversarially training a de-correlated jet tagger.

The Python code only *constructs* computation graphs (it wires `Input`,
`Dense`, `BatchNormalization`, `Dropout`, `Lambda`, `Concatenate` layers and
the project's custom `PosteriorLayer`, `GradientReversalLayer` and
`DecorrelationLayer` into Keras `Model` objects).  We embed that construction
shallowly: a symbolic tensor-graph AST (`GTensor`), Python dictionaries as
association lists (`Dict`), and Keras models as records (`KModel`).  Layer
names produced deterministically by `layer_name` are kept verbatim; the
unique-id suffixes Keras appends via its global `K.get_uid` state (used
through `keras_layer_name`) are framework state external to the repository
and are abstracted away, keeping the deterministic `scope/class` part.
The numeric semantics of the activation functions attached by the code
(`softmax`, `sigmoid`, `softplus`) is modelled over the reals.
-/

/-- Python values as they occur in the layer-configuration dictionaries:
`None`, booleans, integers and strings. -/
inductive PyVal where
  | none
  | bool (b : Bool)
  | int (n : Int)
  | str (s : String)
deriving DecidableEq, Repr

/-- Python truthiness for the values of `PyVal` (`if x:`). -/
def PyVal.truthy : PyVal → Bool
  | .none => false
  | .bool b => b
  | .int n => n != 0
  | .str s => s ≠ ""

/-- A Python `dict` with string keys, as an association list.  Python dicts
never hold a key twice; where a proof needs that, it assumes the key list is
`Nodup`. -/
abbrev Dict := List (String × PyVal)

/-- `d[k]` lookup, `None`-free: first matching entry. -/
def Dict.get? : Dict → String → Option PyVal
  | [], _ => Option.none
  | p :: d, k => if p.1 = k then Option.some p.2 else Dict.get? d k

/-- `d[k] = v`: replace the (first) entry for `k`, or append a new one. -/
def Dict.set : Dict → String → PyVal → Dict
  | [], k, v => [(k, v)]
  | p :: d, k, v => if p.1 = k then (k, v) :: d else p :: Dict.set d k v

/-- `d.update(e)`: set every entry of `e` in `d`, in order. -/
def Dict.update (d e : Dict) : Dict :=
  e.foldl (fun a p => Dict.set a p.1 p.2) d

/-- Remove the (first) entry for `k`. -/
def Dict.erase : Dict → String → Dict
  | [], _ => []
  | p :: d, k => if p.1 = k then d else p :: Dict.erase d k

/-- `d.pop(k, dflt)`: the value at `k` (or `dflt`) together with the dict
without `k`. -/
def Dict.pop (d : Dict) (k : String) (dflt : PyVal) : PyVal × Dict :=
  match Dict.get? d k with
  | Option.some v => (v, Dict.erase d k)
  | Option.none => (dflt, d)

/-- Symbolic Keras tensors: each constructor records one layer application of
`models.py` with the configuration the source passes to it.
  * `input`: an `Input(shape=..., name=...)` tensor; `shape` is the
    per-sample shape, i.e. Keras's `input_shape[1:]` with the batch axis
    stripped.
  * `dense`: a `Dense(**opts)` application; `opts` is the keyword-argument
    dict (holding e.g. `units` and `activation`), `l1reg`/`l2reg` the
    strengths of the activity and kernel regularizers when truthy.
  * `ptRescale`: the `Lambda(lambda pt: (pt - log 200)/(log 2000 - log 200))`
    rescaling of the adversary's pt input (its floating-point constants play
    no role in any claim and are not modelled further).
  * `posteriorLayer`, `gradReversal`, `decorrLayer`: the custom layers from
    `adversarial/layers.py`; only their wiring matters here, so they are
    uninterpreted graph nodes carrying the arguments the source passes.
  * `modelApply`: a Keras `Model` called on a list of tensors; it carries the
    called model's fields. -/
inductive GTensor where
  | input (shape : List Nat) (name : String)
  | dense (opts : Dict) (l1reg l2reg : Option PyVal) (name : String) (x : GTensor)
  | batchNorm (name : String) (x : GTensor)
  | dropout (rate : PyVal) (name : String) (x : GTensor)
  | ptRescale (x : GTensor)
  | concatenate (name : String) (xs : List GTensor)
  | posteriorLayer (components : Option Nat) (dimensions : Nat) (name : String)
      (args : List GTensor)
  | gradReversal (coeff : Rat) (name : String) (x : GTensor)
  | decorrLayer (args : List GTensor)
  | modelApply (minputs moutputs : List GTensor) (mname : String) (mtrainable : Bool)
      (args : List GTensor)

/-- A Keras `Model`: its input tensors, output tensors, name and `trainable`
flag (the only model attributes `models.py` reads or writes). -/
structure KModel where
  inputs : List GTensor
  outputs : List GTensor
  name : String
  trainable : Bool := true

/-- Calling a model on a list of tensors, `model(args)`. -/
def KModel.apply (m : KModel) (args : List GTensor) : GTensor :=
  GTensor.modelApply m.inputs m.outputs m.name m.trainable args

/-- `layer_name_factory scope`: prefix `name` with `scope/` when the scope is
truthy (a non-empty string). -/
def layer_name (scope name : String) : String :=
  if scope = "" then name else scope ++ "/" ++ name

/-- `keras_layer_name_factory scope` applied to a layer class: the source
appends `snake_case(cls)` and a Keras unique id (`K.get_uid`, global
framework state).  The id suffix is abstracted; the deterministic
`scope/snake-case-class` part is kept (`cls` is passed already snake-cased). -/
def keras_layer_name (scope cls : String) : String :=
  layer_name scope cls

/-- The per-sample input shape of an `Input` tensor (`layer.input_shape[1:]`
in the source); `[]` for non-input nodes, whose shapes the source never
reads. -/
def GTensor.input_shape : GTensor → List Nat
  | .input s _ => s
  | _ => []

/-- The name of the layer that produced a tensor (`layer.name`). -/
def GTensor.lname : GTensor → String
  | .input _ n => n
  | .dense _ _ _ n _ => n
  | .batchNorm n _ => n
  | .dropout _ n _ => n
  | .ptRescale _ => ""
  | .concatenate n _ => n
  | .posteriorLayer _ _ n _ => n
  | .gradReversal _ n _ => n
  | .decorrLayer _ => ""
  | .modelApply _ _ n _ _ => n

/-- `type(l) == InputLayer`. -/
def GTensor.isInputLayer : GTensor → Bool
  | .input _ _ => true
  | _ => false

/-- Python `s.endswith(suffix)`, character-list based. -/
def strEndsWith (s suffix : String) : Bool :=
  suffix.data.isSuffixOf s.data

/-- Python `s.replace(c, d)` for a one-character pattern (the only form the
source uses: `name.replace('/', '_')`). -/
def replaceChar (s : String) (c d : Char) : String :=
  String.mk (s.data.map fun x => if x = c then d else x)

/-- The keyword arguments of the `Dense` layer built by one `stack_layers`
iteration: the defaults overridden by the layer's own spec
(`opts = dict(**default); opts.update(spec)`), with the four non-standard
keys popped off in the source's order. -/
def denseKwargs (default spec : Dict) : Dict :=
  (((((Dict.update default spec).pop "batchnorm" (PyVal.bool false)).2.pop
      "dropout" PyVal.none).2.pop "l1reg" PyVal.none).2.pop "l2reg" PyVal.none).2

/-- One iteration of the `stack_layers` loop: merge the defaults with the
layer spec, pop the non-standard keys, then optionally batch-normalise,
apply the `Dense` layer, and optionally apply dropout.  The dropout seed
drawn from the module's `RNG` is framework-external randomness and is not
recorded. -/
def stackStep (scope : String) (default : Dict) (l : GTensor) (spec : Dict) : GTensor :=
  let opts0 := Dict.update default spec
  let pb := opts0.pop "batchnorm" (PyVal.bool false)
  let pd := pb.2.pop "dropout" PyVal.none
  let p1 := pd.2.pop "l1reg" PyVal.none
  let p2 := p1.2.pop "l2reg" PyVal.none
  let batchnorm := pb.1
  let dropout := pd.1
  let l1reg := p1.1
  let l2reg := p2.1
  let opts := p2.2
  let l := if batchnorm.truthy then
      GTensor.batchNorm (keras_layer_name scope "batch_normalization") l
    else l
  let l := GTensor.dense opts
      (if l1reg.truthy then Option.some l1reg else Option.none)
      (if l2reg.truthy then Option.some l2reg else Option.none)
      (keras_layer_name scope "dense") l
  if dropout.truthy then
    GTensor.dropout dropout (keras_layer_name scope "dropout") l
  else l

/-- `stack_layers input_layer architecture default scope`: fold the layer
specifications over the input layer. -/
def stack_layers (input_layer : GTensor) (architecture : List Dict) (default : Dict)
    (scope : String) : GTensor :=
  architecture.foldl (fun l spec => stackStep scope default l spec) input_layer

/-- `classifier_model`: a `(num_params,)`-shaped input, the configured hidden
stack, and a 1-unit sigmoid `Dense` output. -/
def classifier_model (num_params : Nat) (architecture : List Dict := [])
    (default : Dict := []) (scope : String := "classifier") : KModel :=
  let classifier_input := GTensor.input [num_params] (layer_name scope "input")
  let classifier_stack := stack_layers classifier_input architecture default scope
  let classifier_output := GTensor.dense
      [("units", PyVal.int 1), ("activation", PyVal.str "sigmoid")]
      Option.none Option.none (layer_name scope "output") classifier_stack
  { inputs := [classifier_input], outputs := [classifier_output], name := scope }

/-- `adversary_model`: inputs for the classifier output, pt and the
de-correlation variables; a shared feature stack over the concatenated
(rescaled-pt) inputs; one softmax coefficient head, `gmm_dimensions` sigmoid
mean heads and `gmm_dimensions` softplus width heads, all of `gmm_components`
units; and the `PosteriorLayer` output over
`[r_coeffs] + r_means + r_widths + [adversary_input_par]`. -/
def adversary_model (gmm_dimensions : Nat) (gmm_components : Option Nat := Option.none)
    (architecture : List Dict := []) (default : Dict := [])
    (scope : String := "adversary") : KModel :=
  let adversary_input_clf := GTensor.input [1] (layer_name scope "input_clf")
  let adversary_input_pt := GTensor.input [1] (layer_name scope "input_pt")
  let adversary_input_par := GTensor.input [gmm_dimensions] (layer_name scope "input_par")
  let clf := adversary_input_clf
  let pt := GTensor.ptRescale adversary_input_pt
  let inputs := GTensor.concatenate (layer_name scope "concatenate") [clf, pt]
  let features := stack_layers inputs architecture default scope
  let gc : PyVal := match gmm_components with
    | Option.some k => PyVal.int k
    | Option.none => PyVal.none
  let r_coeffs := GTensor.dense [("units", gc), ("activation", PyVal.str "softmax")]
      Option.none Option.none (layer_name scope "coeffs") features
  let r_means := (List.range gmm_dimensions).map fun i =>
    GTensor.dense [("units", gc), ("activation", PyVal.str "sigmoid")]
      Option.none Option.none (layer_name scope ("means_" ++ toString (i + 1))) features
  let r_widths := (List.range gmm_dimensions).map fun i =>
    GTensor.dense [("units", gc), ("activation", PyVal.str "softplus")]
      Option.none Option.none (layer_name scope ("widths_" ++ toString (i + 1))) features
  let adversary_output := GTensor.posteriorLayer gmm_components gmm_dimensions
      (layer_name scope "output") ([r_coeffs] ++ r_means ++ r_widths ++ [adversary_input_par])
  { inputs := [adversary_input_clf, adversary_input_pt, adversary_input_par],
    outputs := [adversary_output], name := scope }

/-- `combined_model`: rebuild the classifier on a fresh input, reverse its
gradient with coefficient `lambda_reg * lr_ratio`, rebuild the adversary's
pt- and par-inputs freshly, and wire everything into one two-output model.
Failures of the Python code are `Except.error`: indexing `layers[0]` of a
model without layers, multiplying a `None` regularisation parameter
(`TypeError`), and indexing an empty `filter` result.  For the models this
file builds, `classifier.layers[0]` is the classifier's `InputLayer`, i.e.
the head of its inputs, and the `InputLayer`s among `adversary.layers` are
exactly the adversary's inputs. -/
def combined_model (classifier adversary : KModel)
    (lambda_reg lr_ratio : Option Rat := Option.none)
    (scope : String := "combined") : Except String KModel :=
  match classifier.inputs.head? with
  | Option.none => Except.error "IndexError: classifier.layers[0]"
  | Option.some classifier_input =>
    let combined_input_clf := GTensor.input classifier_input.input_shape
        (layer_name scope (replaceChar classifier_input.lname '/' '_'))
    let combined_output_clf := classifier.apply [combined_input_clf]
    match lambda_reg, lr_ratio with
    | Option.some lam, Option.some lr =>
      let gradient_reversal := GTensor.gradReversal (lam * lr)
          (keras_layer_name scope "gradient_reversal_layer") combined_output_clf
      let input_layers := adversary.inputs.filter fun l => l.isInputLayer
      match (input_layers.filter fun l => strEndsWith l.lname "_pt").head?,
            (input_layers.filter fun l => strEndsWith l.lname "_par").head? with
      | Option.some adversary_input_pt, Option.some adversary_input_par =>
        let inputs_adv := [
          GTensor.input adversary_input_pt.input_shape
            (layer_name scope (replaceChar adversary_input_pt.lname '/' '_')),
          GTensor.input adversary_input_par.input_shape
            (layer_name scope (replaceChar adversary_input_par.lname '/' '_'))]
        let outputs_adv := [adversary.apply (gradient_reversal :: inputs_adv)]
        Except.ok { inputs := combined_input_clf :: inputs_adv,
                    outputs := combined_output_clf :: outputs_adv,
                    name := scope }
      | _, _ => Except.error "IndexError: adversary input-layer lookup"
    | _, _ =>
      Except.error "TypeError: unsupported operand type(s) for *: NoneType"

/-- `decorrelation_model`: sets `classifier.trainable = True` (a mutation of
the argument — returned as the first component), then builds the model with a
fresh classifier input, a `(num_decorrelation_features,)` decorrelation input
and a `(1,)` weight input, and the `DecorrelationLayer` over
`[classifier_output, decorrelation_input, decorrelation_weights]`.  The three
fresh `Input` calls pass no name (Keras assigns framework-generated names,
abstracted here as `""`).  The mutation happens before the `layers[0]` access
and thus persists even on the `IndexError` path. -/
def decorrelation_model (classifier : KModel) (num_decorrelation_features : Nat)
    (scope : String := "decorrelation") : KModel × Except String KModel :=
  let classifier' : KModel := { classifier with trainable := true }
  (classifier',
    match classifier'.inputs.head? with
    | Option.none => Except.error "IndexError: classifier.layers[0]"
    | Option.some cin0 =>
      let decorrelation_input := GTensor.input [num_decorrelation_features] ""
      let decorrelation_weights := GTensor.input [1] ""
      let classifier_input := GTensor.input cin0.input_shape ""
      let classifier_output := classifier'.apply [classifier_input]
      let decorrelation_output := GTensor.decorrLayer
          [classifier_output, decorrelation_input, decorrelation_weights]
      Except.ok { inputs := [classifier_input, decorrelation_input, decorrelation_weights],
                  outputs := [classifier_output, decorrelation_output],
                  name := scope })

/-! ### Dictionary lemmas

Python-dict semantics of `Dict.get?`, `Dict.set`, `Dict.update`, `Dict.erase`
and `Dict.pop`, used to characterise the keyword arguments `stack_layers`
passes to each `Dense` layer. -/

/-- A key that is absent looks up to nothing. -/
theorem Dict.get_eq_none (d : Dict) (k : String) (h : k ∉ d.map Prod.fst) :
    Dict.get? d k = Option.none := by
  induction d with
  | nil => rfl
  | cons p d ih =>
    simp only [List.map_cons, List.mem_cons] at h
    push_neg at h
    have hp : ¬ p.1 = k := fun hh => h.1 hh.symm
    simp [Dict.get?, hp, ih h.2]

/-- Lookup after `Dict.set`. -/
theorem Dict.get_set (d : Dict) (k : String) (v : PyVal) (k' : String) :
    Dict.get? (Dict.set d k v) k' = if k' = k then Option.some v else Dict.get? d k' := by
  induction d with
  | nil =>
    by_cases h : k' = k
    · subst h; simp [Dict.set, Dict.get?]
    · have h2 : ¬ k = k' := fun hh => h hh.symm
      simp [Dict.set, Dict.get?, h, h2]
  | cons p d ih =>
    by_cases hp : p.1 = k
    · subst hp
      by_cases h : k' = p.1
      · subst h; simp [Dict.set, Dict.get?]
      · have h2 : ¬ p.1 = k' := fun hh => h hh.symm
        simp [Dict.set, Dict.get?, h, h2]
    · by_cases hpk : p.1 = k'
      · subst hpk
        simp [Dict.set, Dict.get?, hp]
      · simp [Dict.set, Dict.get?, hp, hpk, ih]

/-- Keys of `Dict.set`. -/
theorem Dict.mem_keys_set (d : Dict) (k : String) (v : PyVal) (a : String) :
    a ∈ (Dict.set d k v).map Prod.fst ↔ a = k ∨ a ∈ d.map Prod.fst := by
  induction d with
  | nil => simp [Dict.set]
  | cons p d ih =>
    by_cases hp : p.1 = k
    · subst hp
      simp only [Dict.set, if_pos rfl, if_true, eq_self_iff_true, List.map_cons,
        List.mem_cons]
      tauto
    · simp only [Dict.set, if_neg hp, List.map_cons, List.mem_cons, ih]
      tauto

/-- `Dict.set` keeps the keys duplicate-free. -/
theorem Dict.nodup_set (d : Dict) (k : String) (v : PyVal)
    (h : (d.map Prod.fst).Nodup) : ((Dict.set d k v).map Prod.fst).Nodup := by
  induction d with
  | nil => simp [Dict.set]
  | cons p d ih =>
    simp only [List.map_cons, List.nodup_cons] at h
    by_cases hp : p.1 = k
    · subst hp
      simp only [Dict.set, if_pos rfl, if_true, eq_self_iff_true, List.map_cons,
        List.nodup_cons]
      exact h
    · simp only [Dict.set, if_neg hp, List.map_cons, List.nodup_cons]
      refine ⟨fun hc => ?_, ih h.2⟩
      rcases (Dict.mem_keys_set d k v p.1).mp hc with hh | hh
      · exact hp hh
      · exact h.1 hh

/-- `Dict.update` keeps the keys of the base dict duplicate-free. -/
theorem Dict.nodup_update (d e : Dict) (h : (d.map Prod.fst).Nodup) :
    ((Dict.update d e).map Prod.fst).Nodup := by
  induction e generalizing d with
  | nil => exact h
  | cons p e ih => exact ih (Dict.set d p.1 p.2) (Dict.nodup_set d p.1 p.2 h)

/-- Lookup after `dict.update`: for a duplicate-free update dict, the updated
entry wins on every shared key and the base entry survives elsewhere. -/
theorem Dict.get_update (d e : Dict) (k : String) (he : (e.map Prod.fst).Nodup) :
    Dict.get? (Dict.update d e) k =
      match Dict.get? e k with
      | Option.some v => Option.some v
      | Option.none => Dict.get? d k := by
  induction e generalizing d with
  | nil => rfl
  | cons p e ih =>
    simp only [List.map_cons, List.nodup_cons] at he
    have hstep : Dict.update d (p :: e) = Dict.update (Dict.set d p.1 p.2) e := rfl
    rw [hstep, ih (Dict.set d p.1 p.2) he.2]
    by_cases h : k = p.1
    · subst h
      have hk : Dict.get? e p.1 = Option.none := Dict.get_eq_none e p.1 he.1
      simp [Dict.get?, hk, Dict.get_set]
    · have hp : ¬ p.1 = k := fun hh => h hh.symm
      cases hge : Dict.get? e k <;>
        simp [Dict.get?, h, hp, hge, Dict.get_set]

/-- `Dict.erase` yields a sublist. -/
theorem Dict.erase_sublist (d : Dict) (k : String) : (Dict.erase d k).Sublist d := by
  induction d with
  | nil => exact List.Sublist.refl []
  | cons p d ih =>
    by_cases hp : p.1 = k
    · simp only [Dict.erase, if_pos hp]
      exact List.sublist_cons_self p d
    · simp only [Dict.erase, if_neg hp]
      exact ih.cons₂ p

/-- `Dict.erase` keeps the keys duplicate-free. -/
theorem Dict.nodup_erase (d : Dict) (k : String) (h : (d.map Prod.fst).Nodup) :
    ((Dict.erase d k).map Prod.fst).Nodup :=
  h.sublist (List.Sublist.map Prod.fst (Dict.erase_sublist d k))

/-- Lookup after `Dict.erase`, for a duplicate-free dict: the erased key is
gone, the others are untouched. -/
theorem Dict.get_erase (d : Dict) (k k' : String) (h : (d.map Prod.fst).Nodup) :
    Dict.get? (Dict.erase d k) k' = if k' = k then Option.none else Dict.get? d k' := by
  induction d with
  | nil => simp [Dict.erase, Dict.get?]
  | cons p d ih =>
    simp only [List.map_cons, List.nodup_cons] at h
    by_cases hp : p.1 = k
    · subst hp
      by_cases hk : k' = p.1
      · subst hk
        simp [Dict.erase, Dict.get_eq_none d p.1 h.1]
      · have hp2 : ¬ p.1 = k' := fun hh => hk hh.symm
        simp [Dict.erase, Dict.get?, hk, hp2]
    · by_cases hpk : p.1 = k'
      · subst hpk
        simp [Dict.erase, Dict.get?, hp]
      · simp [Dict.erase, Dict.get?, hp, hpk, ih h.2]

/-- Lookup after `dict.pop`, for a duplicate-free dict. -/
theorem Dict.get_pop (d : Dict) (k : String) (dflt : PyVal) (k' : String)
    (h : (d.map Prod.fst).Nodup) :
    Dict.get? (Dict.pop d k dflt).2 k' =
      if k' = k then Option.none else Dict.get? d k' := by
  unfold Dict.pop
  cases hd : Dict.get? d k with
  | none =>
    by_cases hk : k' = k
    · subst hk; simp [hd]
    · simp [hk]
  | some v => simpa using Dict.get_erase d k k' h

/-- `dict.pop` keeps the keys duplicate-free. -/
theorem Dict.nodup_pop (d : Dict) (k : String) (dflt : PyVal)
    (h : (d.map Prod.fst).Nodup) :
    (((Dict.pop d k dflt).2).map Prod.fst).Nodup := by
  unfold Dict.pop
  cases hd : Dict.get? d k with
  | none => simpa using h
  | some v => simpa using Dict.nodup_erase d k h

/-- The kwargs dict of the `Dense` layer at the top of one stack step (the
step's result is the `Dense` node, possibly wrapped in a `Dropout` node). -/
def topDenseOpts : GTensor → Option Dict
  | .dropout _ _ x => topDenseOpts x
  | .dense opts _ _ _ _ => Option.some opts
  | _ => Option.none

/-- The `Dense` layer of one stack step carries exactly `denseKwargs`. -/
theorem topDenseOpts_stackStep (scope : String) (default : Dict) (l : GTensor)
    (spec : Dict) :
    topDenseOpts (stackStep scope default l spec) =
      Option.some (denseKwargs default spec) := by
  unfold stackStep denseKwargs
  dsimp only
  split <;> rfl

/-- **C7.** In `stack_layers`, the keyword arguments passed to an entry's
`Dense` layer are the `default` dict overridden by the entry's own keys (the
entry's value wins on every shared key), with the four non-standard keys
`batchnorm`, `dropout`, `l1reg` and `l2reg` removed before the `Dense` layer
is constructed. -/
theorem stack_layers_dense_kwargs (default spec : Dict) (k : String) (l : GTensor)
    (scope : String) (hd : (default.map Prod.fst).Nodup)
    (hs : (spec.map Prod.fst).Nodup) :
    topDenseOpts (stack_layers l [spec] default scope) =
        Option.some (denseKwargs default spec)
    ∧ Dict.get? (denseKwargs default spec) k =
        (if k = "batchnorm" ∨ k = "dropout" ∨ k = "l1reg" ∨ k = "l2reg" then
          Option.none
        else
          match Dict.get? spec k with
          | Option.some v => Option.some v
          | Option.none => Dict.get? default k) := by
  constructor
  · exact topDenseOpts_stackStep scope default l spec
  · have h0 : ((Dict.update default spec).map Prod.fst).Nodup :=
      Dict.nodup_update default spec hd
    have h1 := Dict.nodup_pop (Dict.update default spec) "batchnorm"
      (PyVal.bool false) h0
    have h2 := Dict.nodup_pop _ "dropout" PyVal.none h1
    have h3 := Dict.nodup_pop _ "l1reg" PyVal.none h2
    unfold denseKwargs
    rw [Dict.get_pop _ "l2reg" PyVal.none k h3,
        Dict.get_pop _ "l1reg" PyVal.none k h2,
        Dict.get_pop _ "dropout" PyVal.none k h1,
        Dict.get_pop _ "batchnorm" (PyVal.bool false) k h0,
        Dict.get_update default spec k hs]
    by_cases e1 : k = "batchnorm" <;> by_cases e2 : k = "dropout" <;>
      by_cases e3 : k = "l1reg" <;> by_cases e4 : k = "l2reg" <;>
      simp_all

/-- Concrete witness for `stack_layers_dense_kwargs`: a two-key default, a
one-key layer spec, looking up the inherited `activation` key. -/
theorem stack_layers_dense_kwargs_witness :
    ((([("activation", PyVal.str "relu"), ("dropout", PyVal.int 1)] :
        Dict).map Prod.fst).Nodup
      ∧ (([("units", PyVal.int 8)] : Dict).map Prod.fst).Nodup)
    ∧ (topDenseOpts (stack_layers (GTensor.input [2] "x") [[("units", PyVal.int 8)]]
          [("activation", PyVal.str "relu"), ("dropout", PyVal.int 1)] "classifier") =
        Option.some (denseKwargs
          [("activation", PyVal.str "relu"), ("dropout", PyVal.int 1)]
          [("units", PyVal.int 8)])
      ∧ Dict.get? (denseKwargs
          [("activation", PyVal.str "relu"), ("dropout", PyVal.int 1)]
          [("units", PyVal.int 8)]) "activation" =
        (if ("activation" : String) = "batchnorm" ∨ ("activation" : String) = "dropout"
            ∨ ("activation" : String) = "l1reg" ∨ ("activation" : String) = "l2reg" then
          Option.none
        else
          match Dict.get? [("units", PyVal.int 8)] "activation" with
          | Option.some v => Option.some v
          | Option.none =>
            Dict.get? [("activation", PyVal.str "relu"), ("dropout", PyVal.int 1)]
              "activation")) :=
  ⟨⟨by decide, by decide⟩,
    stack_layers_dense_kwargs
      [("activation", PyVal.str "relu"), ("dropout", PyVal.int 1)]
      [("units", PyVal.int 8)] "activation" (GTensor.input [2] "x") "classifier"
      (by decide) (by decide)⟩

/-- The `units` keyword argument of the `Dense` layer producing a tensor. -/
def GTensor.units : GTensor → Option PyVal
  | .dense opts _ _ _ _ => Dict.get? opts "units"
  | _ => Option.none

/-- The `activation` keyword argument of the `Dense` layer producing a
tensor. -/
def GTensor.activationOf : GTensor → Option PyVal
  | .dense opts _ _ _ _ => Dict.get? opts "activation"
  | _ => Option.none

/-- The tensor a `Dense` layer was applied to. -/
def GTensor.denseInput : GTensor → Option GTensor
  | .dense _ _ _ _ x => Option.some x
  | _ => Option.none

/-- Whether a model construction succeeded (no Python exception). -/
def builds : Except String KModel → Bool
  | .ok _ => true
  | .error _ => false

/-- **C4.** For every `num_params ≥ 1` (written `n + 1`) and every
architecture list and default dict, `classifier_model` returns a model with a
single input of shape `(num_params,)` and a single output produced by a
1-unit `Dense` layer with sigmoid activation applied to the result of
stacking the configured hidden layers on the input. -/
theorem classifier_model_structure (n : Nat) (architecture : List Dict)
    (default : Dict) (scope : String) :
    (classifier_model (n + 1) architecture default scope).inputs =
      [GTensor.input [n + 1] (layer_name scope "input")]
    ∧ (classifier_model (n + 1) architecture default scope).outputs =
      [GTensor.dense [("units", PyVal.int 1), ("activation", PyVal.str "sigmoid")]
        Option.none Option.none (layer_name scope "output")
        (stack_layers (GTensor.input [n + 1] (layer_name scope "input"))
          architecture default scope)] :=
  ⟨rfl, rfl⟩

/-- **C8.** `decorrelation_model` mutates the classifier passed to it: after
every call the argument model's `trainable` attribute is `True`, regardless
of its value before the call, and no other attribute of the argument is
changed. -/
theorem decorrelation_model_frame (classifier : KModel)
    (num_decorrelation_features : Nat) (scope : String) :
    (decorrelation_model classifier num_decorrelation_features scope).1.trainable = true
    ∧ (decorrelation_model classifier num_decorrelation_features scope).1.inputs =
        classifier.inputs
    ∧ (decorrelation_model classifier num_decorrelation_features scope).1.outputs =
        classifier.outputs
    ∧ (decorrelation_model classifier num_decorrelation_features scope).1.name =
        classifier.name :=
  ⟨rfl, rfl, rfl, rfl⟩

/-- **C9.** `combined_model` fails with an error whenever it is called with
its default `lambda_reg = None` or `lr_ratio = None` (the gradient-reversal
coefficient is the product `lambda_reg * lr_ratio`, whose evaluation on
`None` raises a `TypeError`); hence a model is constructed only when both
parameters are supplied as numbers. -/
theorem combined_model_needs_parameters (classifier adversary : KModel)
    (lambda_reg lr_ratio : Option Rat) (scope : String) :
    builds (combined_model classifier adversary Option.none lr_ratio scope) = false
    ∧ builds (combined_model classifier adversary lambda_reg Option.none scope) =
        false := by
  constructor
  · cases h : classifier.inputs.head? with
    | none => simp [combined_model, h, builds]
    | some ci => simp [combined_model, h, builds]
  · cases h : classifier.inputs.head? with
    | none => simp [combined_model, h, builds]
    | some ci => cases lambda_reg <;> simp [combined_model, h, builds]

/-- The shared feature stack of `adversary_model`: the hidden layers stacked
on the concatenation of the classifier-output input and the rescaled pt
input. -/
def advFeatures (architecture : List Dict) (default : Dict) (scope : String) : GTensor :=
  stack_layers
    (GTensor.concatenate (layer_name scope "concatenate")
      [GTensor.input [1] (layer_name scope "input_clf"),
       GTensor.ptRescale (GTensor.input [1] (layer_name scope "input_pt"))])
    architecture default scope

/-- The argument list handed to the `PosteriorLayer` when the model's single
output is a `PosteriorLayer` application (as in `adversary_model`). -/
def KModel.gmmArgs (m : KModel) : List GTensor :=
  match m.outputs with
  | [GTensor.posteriorLayer _ _ _ args] => args
  | _ => []

/-- Length of a `[coeffs] ++ means ++ widths ++ [par]`-shaped list. -/
theorem quad_length {α : Type} (c p : α) (n : Nat) (f g : Nat → α) :
    ([c] ++ (List.range n).map f ++ (List.range n).map g ++ [p]).length =
      n + n + 2 := by
  simp [List.length_append, List.length_map, List.length_range]
  omega

/-- Head of a `[coeffs] ++ means ++ widths ++ [par]`-shaped list. -/
theorem quad_get_zero {α : Type} (c p : α) (n : Nat) (f g : Nat → α) :
    ([c] ++ (List.range n).map f ++ (List.range n).map g ++ [p])[0]? =
      Option.some c := by
  simp

/-- Entry `1 + i` of a `[coeffs] ++ means ++ widths ++ [par]`-shaped list is
the `i`-th mean head. -/
theorem quad_get_mean {α : Type} (c p : α) (n : Nat) (f g : Nat → α) (i : Nat)
    (hi : i < n) :
    ([c] ++ (List.range n).map f ++ (List.range n).map g ++ [p])[1 + i]? =
      Option.some (f i) := by
  have h1 : 1 + i = i + 1 := by omega
  simp [h1, List.getElem?_append, List.getElem?_map, List.getElem?_range,
    List.length_map, List.length_range, hi]

/-- Entry `1 + n + i` of a `[coeffs] ++ means ++ widths ++ [par]`-shaped list
is the `i`-th width head. -/
theorem quad_get_width {α : Type} (c p : α) (n : Nat) (f g : Nat → α) (i : Nat)
    (hi : i < n) :
    ([c] ++ (List.range n).map f ++ (List.range n).map g ++ [p])[1 + n + i]? =
      Option.some (g i) := by
  have h1 : 1 + n + i = (n + i) + 1 := by omega
  have h2 : ¬ (n + i < n) := by omega
  have h3 : n + i - n = i := by omega
  simp [h1, List.getElem?_append, List.getElem?_map, List.getElem?_range,
    List.length_map, List.length_range, h2, h3, hi]

/-- Last entry of a `[coeffs] ++ means ++ widths ++ [par]`-shaped list. -/
theorem quad_get_last {α : Type} (c p : α) (n : Nat) (f g : Nat → α) :
    ([c] ++ (List.range n).map f ++ (List.range n).map g ++ [p])[1 + n + n]? =
      Option.some p := by
  rw [List.getElem?_append]
  simp only [List.length_append, List.length_map, List.length_range,
    List.length_singleton]
  rw [if_neg (by omega), (by omega : 1 + n + n - (1 + n + n) = 0)]
  rfl

/-- **C1.** For every `gmm_dimensions d ≥ 1` (written `d + 1`) and
`gmm_components k ≥ 1` (written `k + 1`), `adversary_model` returns a model
with exactly three inputs — the classifier output of shape `(1,)`, a pt input
of shape `(1,)`, and a `d`-dimensional decorrelation-variable input — whose
Gaussian-mixture parametrization is exactly one softmax coefficient head of
`k` units, `d` sigmoid mean heads of `k` units, and `d` softplus width heads
of `k` units, all applied to the shared feature stack, passed in the order
`[coefficients, means_1..means_d, widths_1..widths_d, input_par]` to the
`PosteriorLayer` that produces the model's single output. -/
theorem adversary_model_structure (d k : Nat) (architecture : List Dict)
    (default : Dict) (scope : String) :
    (adversary_model (d + 1) (Option.some (k + 1)) architecture default scope).inputs =
      [GTensor.input [1] (layer_name scope "input_clf"),
       GTensor.input [1] (layer_name scope "input_pt"),
       GTensor.input [d + 1] (layer_name scope "input_par")]
    ∧ (adversary_model (d + 1) (Option.some (k + 1)) architecture default scope).outputs =
      [GTensor.posteriorLayer (Option.some (k + 1)) (d + 1) (layer_name scope "output")
        ((adversary_model (d + 1) (Option.some (k + 1)) architecture default scope).gmmArgs)]
    ∧ (adversary_model (d + 1) (Option.some (k + 1)) architecture default scope).gmmArgs.length =
        (d + 1) + (d + 1) + 2
    ∧ (adversary_model (d + 1) (Option.some (k + 1)) architecture default scope).gmmArgs[0]? =
        Option.some (GTensor.dense
          [("units", PyVal.int (k + 1)), ("activation", PyVal.str "softmax")]
          Option.none Option.none (layer_name scope "coeffs")
          (advFeatures architecture default scope))
    ∧ (∀ i : Fin (d + 1),
        (adversary_model (d + 1) (Option.some (k + 1)) architecture default scope).gmmArgs[1 + i.val]? =
          Option.some (GTensor.dense
            [("units", PyVal.int (k + 1)), ("activation", PyVal.str "sigmoid")]
            Option.none Option.none
            (layer_name scope ("means_" ++ toString (i.val + 1)))
            (advFeatures architecture default scope)))
    ∧ (∀ i : Fin (d + 1),
        (adversary_model (d + 1) (Option.some (k + 1)) architecture default scope).gmmArgs[1 + (d + 1) + i.val]? =
          Option.some (GTensor.dense
            [("units", PyVal.int (k + 1)), ("activation", PyVal.str "softplus")]
            Option.none Option.none
            (layer_name scope ("widths_" ++ toString (i.val + 1)))
            (advFeatures architecture default scope)))
    ∧ (adversary_model (d + 1) (Option.some (k + 1)) architecture default scope).gmmArgs[1 + (d + 1) + (d + 1)]? =
        Option.some (GTensor.input [d + 1] (layer_name scope "input_par")) := by
  have hargs :
      (adversary_model (d + 1) (Option.some (k + 1)) architecture default scope).gmmArgs =
      [GTensor.dense
          [("units", PyVal.int (k + 1)), ("activation", PyVal.str "softmax")]
          Option.none Option.none (layer_name scope "coeffs")
          (advFeatures architecture default scope)]
        ++ (List.range (d + 1)).map (fun i => GTensor.dense
            [("units", PyVal.int (k + 1)), ("activation", PyVal.str "sigmoid")]
            Option.none Option.none
            (layer_name scope ("means_" ++ toString (i + 1)))
            (advFeatures architecture default scope))
        ++ (List.range (d + 1)).map (fun i => GTensor.dense
            [("units", PyVal.int (k + 1)), ("activation", PyVal.str "softplus")]
            Option.none Option.none
            (layer_name scope ("widths_" ++ toString (i + 1)))
            (advFeatures architecture default scope))
        ++ [GTensor.input [d + 1] (layer_name scope "input_par")] := rfl
  refine ⟨rfl, rfl, ?_, ?_, ?_, ?_, ?_⟩
  · rw [hargs]; exact quad_length _ _ _ _ _
  · rw [hargs]; exact quad_get_zero _ _ _ _ _
  · intro i; rw [hargs]; exact quad_get_mean _ _ _ _ _ i.val i.isLt
  · intro i; rw [hargs]; exact quad_get_width _ _ _ _ _ i.val i.isLt
  · rw [hargs]; exact quad_get_last _ _ _ _ _

/-! ### Activation semantics

The code attaches the activations `softmax`, `sigmoid` and `softplus` to the
adversary's parameter heads.  Their numeric meaning (supplied by the ML
framework) is modelled over the reals to state the validity of the
Gaussian-mixture parameters. -/

/-- The `sigmoid` activation. -/
noncomputable def sigmoid (x : ℝ) : ℝ := 1 / (1 + Real.exp (-x))

/-- The `softplus` activation. -/
noncomputable def softplus (x : ℝ) : ℝ := Real.log (1 + Real.exp x)

/-- The `softmax` activation over a layer of `n` units. -/
noncomputable def softmax {n : Nat} (v : Fin n → ℝ) (i : Fin n) : ℝ :=
  Real.exp (v i) / ∑ j, Real.exp (v j)

/-- Sigmoid outputs are nonnegative. -/
theorem sigmoid_nonneg (x : ℝ) : 0 ≤ sigmoid x := by
  unfold sigmoid
  positivity

/-- Sigmoid outputs are at most one. -/
theorem sigmoid_le_one (x : ℝ) : sigmoid x ≤ 1 := by
  unfold sigmoid
  rw [div_le_one (by positivity)]
  linarith [Real.exp_pos (-x)]

/-- Softplus outputs are strictly positive. -/
theorem softplus_pos (x : ℝ) : 0 < softplus x := by
  unfold softplus
  apply Real.log_pos
  linarith [Real.exp_pos x]

/-- Softmax outputs are nonnegative. -/
theorem softmax_nonneg {n : Nat} (v : Fin n → ℝ) (i : Fin n) : 0 ≤ softmax v i := by
  unfold softmax
  positivity

/-- Softmax outputs over a nonempty layer sum to one. -/
theorem softmax_sum_one (n : Nat) (v : Fin (n + 1) → ℝ) : ∑ i, softmax v i = 1 := by
  unfold softmax
  rw [← Finset.sum_div]
  exact div_self (ne_of_gt
    (Finset.sum_pos (fun j _ => Real.exp_pos (v j)) Finset.univ_nonempty))

/-- **C5.** In the model built by `adversary_model`, the Gaussian-mixture
parameters are always valid: the mixture coefficients are produced by a
softmax activation (under the activation semantics: nonnegative, summing to
one over the components), every mean by a sigmoid activation (each mean lies
in `[0, 1]`), and every width by a softplus activation (each width is
strictly positive). -/
theorem adversary_model_gmm_validity (d k : Nat) (architecture : List Dict)
    (default : Dict) (scope : String) (n : Nat) (v : Fin (n + 1) → ℝ)
    (i : Fin (n + 1)) (x : ℝ) :
    ((adversary_model (d + 1) (Option.some (k + 1)) architecture default scope).gmmArgs[0]?).bind
        GTensor.activationOf = Option.some (PyVal.str "softmax")
    ∧ (∀ j : Fin (d + 1),
        ((adversary_model (d + 1) (Option.some (k + 1)) architecture default scope).gmmArgs[1 + j.val]?).bind
          GTensor.activationOf = Option.some (PyVal.str "sigmoid"))
    ∧ (∀ j : Fin (d + 1),
        ((adversary_model (d + 1) (Option.some (k + 1)) architecture default scope).gmmArgs[1 + (d + 1) + j.val]?).bind
          GTensor.activationOf = Option.some (PyVal.str "softplus"))
    ∧ (0 ≤ softmax v i ∧ ∑ j, softmax v j = 1)
    ∧ (0 ≤ sigmoid x ∧ sigmoid x ≤ 1)
    ∧ 0 < softplus x := by
  have hargs :
      (adversary_model (d + 1) (Option.some (k + 1)) architecture default scope).gmmArgs =
      [GTensor.dense
          [("units", PyVal.int (k + 1)), ("activation", PyVal.str "softmax")]
          Option.none Option.none (layer_name scope "coeffs")
          (advFeatures architecture default scope)]
        ++ (List.range (d + 1)).map (fun j => GTensor.dense
            [("units", PyVal.int (k + 1)), ("activation", PyVal.str "sigmoid")]
            Option.none Option.none
            (layer_name scope ("means_" ++ toString (j + 1)))
            (advFeatures architecture default scope))
        ++ (List.range (d + 1)).map (fun j => GTensor.dense
            [("units", PyVal.int (k + 1)), ("activation", PyVal.str "softplus")]
            Option.none Option.none
            (layer_name scope ("widths_" ++ toString (j + 1)))
            (advFeatures architecture default scope))
        ++ [GTensor.input [d + 1] (layer_name scope "input_par")] := rfl
  refine ⟨?_, ?_, ?_, ⟨softmax_nonneg v i, softmax_sum_one n v⟩,
    ⟨sigmoid_nonneg x, sigmoid_le_one x⟩, softplus_pos x⟩
  · rw [hargs, quad_get_zero]
    simp [GTensor.activationOf, Dict.get?]
  · intro j
    rw [hargs, quad_get_mean _ _ _ _ _ j.val j.isLt]
    simp [GTensor.activationOf, Dict.get?]
  · intro j
    rw [hargs, quad_get_width _ _ _ _ _ j.val j.isLt]
    simp [GTensor.activationOf, Dict.get?]

/-- The first argument passed to the applied adversary in a two-output
combined model. -/
def adversaryFirstArg (m : KModel) : Option GTensor :=
  match m.outputs with
  | [_, GTensor.modelApply _ _ _ _ (g :: _)] => Option.some g
  | _ => Option.none

/-- **C3.** `combined_model` returns a model whose inputs are a fresh input
with the classifier's input shape followed by fresh inputs with the
adversary's pt- and decorrelation-variable-input shapes, and whose outputs
are exactly `[classifier output, adversary output]`, the adversary being
applied to the gradient-reversed classifier output together with the two
fresh adversary inputs. -/
theorem combined_model_graph (classifier adversary : KModel) (a b : Rat)
    (scope : String) (ci : GTensor) (crest : List GTensor)
    (hc : classifier.inputs = ci :: crest) (pt par : GTensor)
    (hpt : (((adversary.inputs.filter fun l => l.isInputLayer).filter
        fun l => strEndsWith l.lname "_pt").head?) = Option.some pt)
    (hpar : (((adversary.inputs.filter fun l => l.isInputLayer).filter
        fun l => strEndsWith l.lname "_par").head?) = Option.some par) :
    combined_model classifier adversary (Option.some a) (Option.some b) scope =
      Except.ok
        { inputs :=
            [GTensor.input ci.input_shape
               (layer_name scope (replaceChar ci.lname '/' '_')),
             GTensor.input pt.input_shape
               (layer_name scope (replaceChar pt.lname '/' '_')),
             GTensor.input par.input_shape
               (layer_name scope (replaceChar par.lname '/' '_'))],
          outputs :=
            [classifier.apply
               [GTensor.input ci.input_shape
                  (layer_name scope (replaceChar ci.lname '/' '_'))],
             adversary.apply
               [GTensor.gradReversal (a * b)
                  (keras_layer_name scope "gradient_reversal_layer")
                  (classifier.apply
                    [GTensor.input ci.input_shape
                       (layer_name scope (replaceChar ci.lname '/' '_'))]),
                GTensor.input pt.input_shape
                  (layer_name scope (replaceChar pt.lname '/' '_')),
                GTensor.input par.input_shape
                  (layer_name scope (replaceChar par.lname '/' '_'))]],
          name := scope } := by
  have hh : classifier.inputs.head? = Option.some ci := by rw [hc]; rfl
  simp only [combined_model, hh, hpt, hpar]

/-- **C2.** `combined_model` feeds the classifier's output into the adversary
through a `GradientReversalLayer` whose reversal coefficient is exactly the
product `lambda_reg * lr_ratio`. -/
theorem combined_model_reversal_coefficient (classifier adversary : KModel)
    (a b : Rat) (scope : String) (ci : GTensor) (crest : List GTensor)
    (hc : classifier.inputs = ci :: crest) (pt par : GTensor)
    (hpt : (((adversary.inputs.filter fun l => l.isInputLayer).filter
        fun l => strEndsWith l.lname "_pt").head?) = Option.some pt)
    (hpar : (((adversary.inputs.filter fun l => l.isInputLayer).filter
        fun l => strEndsWith l.lname "_par").head?) = Option.some par) :
    (combined_model classifier adversary (Option.some a) (Option.some b) scope).map
      adversaryFirstArg =
      Except.ok (Option.some (GTensor.gradReversal (a * b)
        (keras_layer_name scope "gradient_reversal_layer")
        (classifier.apply
          [GTensor.input ci.input_shape
             (layer_name scope (replaceChar ci.lname '/' '_'))]))) := by
  have hh : classifier.inputs.head? = Option.some ci := by rw [hc]; rfl
  simp only [combined_model, hh, hpt, hpar, Except.map, adversaryFirstArg,
    KModel.apply]

/-- **C6.** For every classifier and `num_decorrelation_features ≥ 1`
(written `n + 1`), `decorrelation_model` builds a model with inputs
`[classifier input, decorrelation-feature input, weight input]` and outputs
`[classifier output, DecorrelationLayer output]`, the `DecorrelationLayer`
being applied to `[classifier output, decorrelation input, weight input]`. -/
theorem decorrelation_model_graph (classifier : KModel) (n : Nat)
    (scope : String) (ci : GTensor) (crest : List GTensor)
    (hc : classifier.inputs = ci :: crest) :
    (decorrelation_model classifier (n + 1) scope).2 =
      Except.ok
        { inputs := [GTensor.input ci.input_shape "",
                     GTensor.input [n + 1] "",
                     GTensor.input [1] ""],
          outputs :=
            [({ classifier with trainable := true } : KModel).apply
               [GTensor.input ci.input_shape ""],
             GTensor.decorrLayer
               [({ classifier with trainable := true } : KModel).apply
                  [GTensor.input ci.input_shape ""],
                GTensor.input [n + 1] "",
                GTensor.input [1] ""]],
          name := scope } := by
  have hh : ({ classifier with trainable := true } : KModel).inputs.head? =
      Option.some ci := by
    show classifier.inputs.head? = Option.some ci
    rw [hc]; rfl
  simp only [decorrelation_model, hh]

/-- Concrete two-feature classifier used by the witnesses. -/
def witClassifier : KModel := classifier_model 2 [] [] "classifier"

/-- Concrete one-dimensional, two-component adversary used by the
witnesses. -/
def witAdversary : KModel := adversary_model 1 (Option.some 2) [] [] "adversary"

/-- The input tensor of `witClassifier`. -/
def witCi : GTensor := GTensor.input [2] (layer_name "classifier" "input")

/-- The pt input tensor of `witAdversary`. -/
def witPt : GTensor := GTensor.input [1] (layer_name "adversary" "input_pt")

/-- The decorrelation-variable input tensor of `witAdversary`. -/
def witPar : GTensor := GTensor.input [1] (layer_name "adversary" "input_par")

/-- Concrete witness for `combined_model_graph`. -/
theorem combined_model_graph_witness :
    (witClassifier.inputs = witCi :: []
      ∧ (((witAdversary.inputs.filter fun l => l.isInputLayer).filter
            fun l => strEndsWith l.lname "_pt").head?) = Option.some witPt
      ∧ (((witAdversary.inputs.filter fun l => l.isInputLayer).filter
            fun l => strEndsWith l.lname "_par").head?) = Option.some witPar)
    ∧ combined_model witClassifier witAdversary (Option.some 2) (Option.some 3)
        "combined" =
      Except.ok
        { inputs :=
            [GTensor.input witCi.input_shape
               (layer_name "combined" (replaceChar witCi.lname '/' '_')),
             GTensor.input witPt.input_shape
               (layer_name "combined" (replaceChar witPt.lname '/' '_')),
             GTensor.input witPar.input_shape
               (layer_name "combined" (replaceChar witPar.lname '/' '_'))],
          outputs :=
            [witClassifier.apply
               [GTensor.input witCi.input_shape
                  (layer_name "combined" (replaceChar witCi.lname '/' '_'))],
             witAdversary.apply
               [GTensor.gradReversal ((2 : Rat) * 3)
                  (keras_layer_name "combined" "gradient_reversal_layer")
                  (witClassifier.apply
                    [GTensor.input witCi.input_shape
                       (layer_name "combined" (replaceChar witCi.lname '/' '_'))]),
                GTensor.input witPt.input_shape
                  (layer_name "combined" (replaceChar witPt.lname '/' '_')),
                GTensor.input witPar.input_shape
                  (layer_name "combined" (replaceChar witPar.lname '/' '_'))]],
          name := "combined" } :=
  ⟨⟨rfl, rfl, rfl⟩,
    combined_model_graph witClassifier witAdversary 2 3 "combined" witCi []
      rfl witPt witPar rfl rfl⟩

/-- Concrete witness for `combined_model_reversal_coefficient`. -/
theorem combined_model_reversal_coefficient_witness :
    (witClassifier.inputs = witCi :: []
      ∧ (((witAdversary.inputs.filter fun l => l.isInputLayer).filter
            fun l => strEndsWith l.lname "_pt").head?) = Option.some witPt
      ∧ (((witAdversary.inputs.filter fun l => l.isInputLayer).filter
            fun l => strEndsWith l.lname "_par").head?) = Option.some witPar)
    ∧ (combined_model witClassifier witAdversary (Option.some 2) (Option.some 3)
        "combined").map adversaryFirstArg =
      Except.ok (Option.some (GTensor.gradReversal ((2 : Rat) * 3)
        (keras_layer_name "combined" "gradient_reversal_layer")
        (witClassifier.apply
          [GTensor.input witCi.input_shape
             (layer_name "combined" (replaceChar witCi.lname '/' '_'))]))) :=
  ⟨⟨rfl, rfl, rfl⟩,
    combined_model_reversal_coefficient witClassifier witAdversary 2 3 "combined"
      witCi [] rfl witPt witPar rfl rfl⟩

/-- Concrete witness for `decorrelation_model_graph`. -/
theorem decorrelation_model_graph_witness :
    witClassifier.inputs = witCi :: []
    ∧ (decorrelation_model witClassifier (2 + 1) "decorrelation").2 =
      Except.ok
        { inputs := [GTensor.input witCi.input_shape "",
                     GTensor.input [2 + 1] "",
                     GTensor.input [1] ""],
          outputs :=
            [({ witClassifier with trainable := true } : KModel).apply
               [GTensor.input witCi.input_shape ""],
             GTensor.decorrLayer
               [({ witClassifier with trainable := true } : KModel).apply
                  [GTensor.input witCi.input_shape ""],
                GTensor.input [2 + 1] "",
                GTensor.input [1] ""]],
          name := "decorrelation" } :=
  ⟨rfl, decorrelation_model_graph witClassifier 2 "decorrelation" witCi [] rfl⟩
